import Mathlib

set_option linter.unusedVariables false

/-!
# Verification of the DCPSPI daemon glue code

Shallow embedding of `dcpspi.c` and `dcpdefs.h` from the DCPSPI
repository: wire-format constants, command-line parsing
(`process_command_line`), resource setup and teardown (`setup`, `main`),
the top-level run loop (`main_loop`), and the signal handler.

Side effects (daemonizing, opening and closing file descriptors, running
the transaction loop) are modelled as an explicit trace of `Action`
values, and the outcomes of the external resource-acquisition calls are
supplied by an `Env` record, so that every function is a pure, executable
Lean definition mirroring the C control flow.
-/

namespace Dcpspi

/-! ## Wire-format constants, from `dcpdefs.h` -/

def DCPSYNC_HEADER_SIZE : Nat := 6
def DCPSYNC_SLAVE_SERIAL_INVALID : Nat := 0x0000
def DCPSYNC_SLAVE_SERIAL_MIN : Nat := 0x0001
def DCPSYNC_SLAVE_SERIAL_MAX : Nat := 0x7fff
def DCPSYNC_MASTER_SERIAL_INVALID : Nat := 0x8000
def DCPSYNC_MASTER_SERIAL_MIN : Nat := 0x8001
def DCPSYNC_MASTER_SERIAL_MAX : Nat := 0xffff

def DCP_HEADER_SIZE : Nat := 4
def DCP_PAYLOAD_MAXSIZE : Nat := 256

def DCP_COMMAND_WRITE_REGISTER : Nat := 0
def DCP_COMMAND_READ_REGISTER : Nat := 1
def DCP_COMMAND_MULTI_WRITE_REGISTER : Nat := 2
def DCP_COMMAND_MULTI_READ_REGISTER : Nat := 3

def DCP_ESCAPE_CHARACTER : Nat := 0x27

/-! ## Backing buffers of `main_loop` (dcpspi.c lines 114-115)

`static uint8_t dcp_backing_buffer[DCPSYNC_HEADER_SIZE + DCP_HEADER_SIZE + DCP_PAYLOAD_MAXSIZE];`
`static uint8_t spi_backing_buffer[(DCP_HEADER_SIZE + DCP_PAYLOAD_MAXSIZE) * 2];`
-/

def dcp_backing_buffer_size : Nat :=
  DCPSYNC_HEADER_SIZE + DCP_HEADER_SIZE + DCP_PAYLOAD_MAXSIZE

def spi_backing_buffer_size : Nat :=
  (DCP_HEADER_SIZE + DCP_PAYLOAD_MAXSIZE) * 2

/-- The `struct buffer` byte arena held by a `struct dcp_transaction`:
a fixed capacity `size`, a write cursor `pos` and the bytes written so
far.  The struct itself lives in `dcpspi_process.h`, outside the two
files under verification; its shape is taken from the spec's Byte Arena
data model (fixed-capacity owned buffer with cursors). -/
structure Buffer where
  size : Nat
  pos : Nat
  data : List Nat
deriving DecidableEq

/-- Capacities of the two arenas as initialized by `main_loop`
(dcpspi.c lines 117-129): `.size = sizeof(dcp_backing_buffer)` and
`.size = sizeof(spi_backing_buffer)`, cursors zeroed by
`reset_transaction_struct`. -/
def main_loop_dcp_buffer : Buffer :=
  { size := dcp_backing_buffer_size, pos := 0, data := [] }

def main_loop_spi_buffer : Buffer :=
  { size := spi_backing_buffer_size, pos := 0, data := [] }

/-- Modelled from the spec: the Byte Arena write path of the transaction
engine (in `dcpspi_process.c`, not under verification) "checks capacity
and reports overflow rather than resizing"; appending a byte succeeds
only when it fits within the fixed capacity and never changes `size`. -/
def buffer_append (b : Buffer) (byte : Nat) : Option Buffer :=
  if b.pos + 1 ≤ b.size then
    some { b with pos := b.pos + 1, data := b.data ++ [byte] }
  else
    none

/-! ## The run loop and the signal handler -/

/-- The mutable process-global state touched by the signal handler:
the `keep_running` flag (dcpspi.c line 64) alongside the other
file-scope mutable data of `dcpspi.c` (the `parameters` struct). -/
structure GlobalState where
  keep_running : Bool
  parameters_spi_clock : Nat
  parameters_gpio_num : Nat
deriving DecidableEq

/-- Trace events for the externally visible effects of `setup`,
`main_loop` and `main`. -/
inductive Action where
  | actDaemonize
  | actOpenFifoIn
  | actOpenFifoOut
  | actOpenSpi
  | actOpenGpio
  | actEnableDebounce
  | actSetSpeed (hz : Nat)
  | actRunLoop (steps : Nat)
  | actCloseFifoIn
  | actCloseFifoOut
  | actCloseSpi
  | actCloseGpio
deriving DecidableEq

/-- `signal_handler` (dcpspi.c lines 334-337): the body is the single
statement `keep_running = false;` — no allocation, no I/O (empty action
trace), no other global is written. -/
def signal_handler (signum : Nat) (g : GlobalState) : GlobalState × List Action :=
  ({ g with keep_running := false }, [])

/-- The `while(keep_running && dcpspi_process(...))` loop of `main_loop`
(dcpspi.c lines 141-144).  `flag n` is the value of the volatile
`keep_running` flag as read at the start of iteration `n` (read exactly
once per iteration, between completed steps); `step n` is the result of
the `n`-th `dcpspi_process` call.  `fuel` bounds the iteration count so
the model is total; the function returns the number of completed steps. -/
def loop_steps (flag step : Nat → Bool) : Nat → Nat → Nat
  | 0, n => n
  | fuel + 1, n => if flag n && step n then loop_steps flag step fuel (n + 1) else n

/-! ## Command line parsing (`process_command_line`, dcpspi.c lines 240-332) -/

def ULONG_MAX : Nat := 2 ^ 64 - 1
def UINT32_MAX : Nat := 2 ^ 32 - 1
def UINT_MAX : Nat := 2 ^ 32 - 1

/-- The `struct parameters` of dcpspi.c lines 147-157. -/
structure Parameters where
  fifo_in_name : String
  fifo_out_name : String
  spidev_name : String
  spi_clock : Nat
  gpio_num : Nat
  run_in_foreground : Bool
  gpio_needs_debouncing : Bool
  dummy_mode : Bool
deriving DecidableEq

/-- The defaults assigned at the top of `process_command_line`
(dcpspi.c lines 243-250). -/
def default_parameters : Parameters :=
  { fifo_in_name := "/tmp/dcp_to_spi"
    fifo_out_name := "/tmp/spi_to_dcp"
    spidev_name := "/dev/spidev0.0"
    spi_clock := 0
    gpio_num := 4
    run_in_foreground := false
    gpio_needs_debouncing := false
    dummy_mode := false }

/-- C `isspace` for the default locale, as consumed by `strtoul`. -/
def isSpaceC (c : Char) : Bool :=
  c = ' ' || c = '\t' || c = '\n' || c = '\x0b' || c = '\x0c' || c = '\r'

def dropSpaces : List Char → List Char
  | [] => []
  | c :: cs => if isSpaceC c then dropSpaces cs else c :: cs

def takeDigits : List Char → List Char × List Char
  | [] => ([], [])
  | c :: cs =>
    if c.isDigit then
      let r := takeDigits cs
      (c :: r.1, r.2)
    else ([], c :: cs)

def digitsToNat (ds : List Char) : Nat :=
  ds.foldl (fun a c => a * 10 + (c.toNat - 48)) 0

/-- Result of `strtoul(nptr, &endptr, 10)`: the returned `unsigned long`
value, the suffix of the input starting at `endptr`, and whether `errno`
was set to `ERANGE`. -/
structure StrtoulOut where
  value : Nat
  rest : List Char
  erange : Bool
deriving DecidableEq

/-- `strtoul` with base 10 on a 64-bit `unsigned long`: skip leading
whitespace, accept an optional sign, consume the maximal digit run; with
no digits the value is 0 and `endptr` is the original pointer; a
magnitude above `ULONG_MAX` clamps to `ULONG_MAX` with `ERANGE`; a
negated value wraps modulo 2^64. -/
def strtoul10 (s : List Char) : StrtoulOut :=
  let t := dropSpaces s
  let signed : Bool × List Char :=
    match t with
    | '-' :: r => (true, r)
    | '+' :: r => (false, r)
    | _ => (false, t)
  let dr := takeDigits signed.2
  if dr.1 = [] then
    { value := 0, rest := s, erange := false }
  else
    let v := digitsToNat dr.1
    if v > ULONG_MAX then
      { value := ULONG_MAX, rest := dr.2, erange := true }
    else
      { value := if signed.1 then (2 ^ 64 - v % 2 ^ 64) % 2 ^ 64 else v,
        rest := dr.2, erange := false }

/-- The validation applied to `--spiclk` and `--gpio` option arguments
(dcpspi.c lines 287-316): `strtoul`, then reject when
`*endptr != '\0' || temp > BOUND || (temp == ULONG_MAX && errno == ERANGE)`. -/
def parse_ul_arg (s : String) (bound : Nat) : Option Nat :=
  let r := strtoul10 s.data
  if r.rest ≠ [] then none
  else if r.value > bound then none
  else if r.value = ULONG_MAX ∧ r.erange then none
  else some r.value

/-- Result of `process_command_line`: -1, 1, 2 or 0 with the filled-in
parameter block. -/
inductive PCLStatus where
  | err
  | help
  | version
  | ok (p : Parameters)
deriving DecidableEq

/-- The argument-scanning `for` loop of `process_command_line`
(dcpspi.c lines 264-324), one option at a time, left to right;
`CHECK_ARGUMENT` failure (option at the end of the argument vector) and
unknown options return -1 (`.err`). -/
def pcl_loop : List String → Parameters → PCLStatus
  | [], p => .ok p
  | a :: rest, p =>
    if a = "--help" then .help
    else if a = "--version" then .version
    else if a = "--fg" then pcl_loop rest { p with run_in_foreground := true }
    else if a = "--ififo" then
      match rest with
      | [] => .err
      | v :: rest2 => pcl_loop rest2 { p with fifo_in_name := v }
    else if a = "--ofifo" then
      match rest with
      | [] => .err
      | v :: rest2 => pcl_loop rest2 { p with fifo_out_name := v }
    else if a = "--spidev" then
      match rest with
      | [] => .err
      | v :: rest2 => pcl_loop rest2 { p with spidev_name := v }
    else if a = "--spiclk" then
      match rest with
      | [] => .err
      | v :: rest2 =>
        match parse_ul_arg v UINT32_MAX with
        | none => .err
        | some n => pcl_loop rest2 { p with spi_clock := n }
    else if a = "--gpio" then
      match rest with
      | [] => .err
      | v :: rest2 =>
        match parse_ul_arg v UINT_MAX with
        | none => .err
        | some n => pcl_loop rest2 { p with gpio_num := n }
    else if a = "--debounce" then pcl_loop rest { p with gpio_needs_debouncing := true }
    else .err

/-- The dummy-mode check after the scanning loop (dcpspi.c lines
328-329): `if(spidev_name[0] == '-' && spidev_name[1] == '\0')`. -/
def apply_dummy (p : Parameters) : Parameters :=
  if p.spidev_name = "-" then { p with dummy_mode := true } else p

/-- `process_command_line` on `argv[1..]`. -/
def process_command_line (args : List String) : PCLStatus :=
  match pcl_loop args default_parameters with
  | .ok p => .ok (apply_dummy p)
  | r => r

/-! ## Resource setup (`setup`, dcpspi.c lines 162-221) -/

/-- Outcomes of the external resource-acquisition calls made by `setup`
and the behaviour of the loop body, supplied by the operating system:
the file descriptors returned by `fifo_create_and_open` (negative on
failure) and `spi_open_device`, whether `daemon` and `gpio_open`
succeed, the values of the `keep_running` flag read at each iteration
boundary, the results of the `dcpspi_process` calls, and a bound on the
number of loop iterations. -/
structure Env where
  fifo_in_fd : Int
  fifo_out_fd : Int
  spi_fd : Int
  gpio_ok : Bool
  daemon_ok : Bool
  flag : Nat → Bool
  step : Nat → Bool
  fuel : Nat

/-- The actions performed before any resource is opened: `daemon(0,0)`
is called only when not running in the foreground (dcpspi.c lines
171-178). -/
def daemon_acts (p : Parameters) : List Action :=
  if p.run_in_foreground then [] else [Action.actDaemonize]

/-- Result of `setup`: -1 with the actions performed so far (the out
parameters are left unassigned), or 0 with the four out parameters
`*fifo_in_fd`, `*fifo_out_fd`, `*spi_fd`, `*gpio` and the action trace. -/
inductive SetupResult where
  | fail (actions : List Action)
  | success (fifo_in_fd fifo_out_fd spi_fd : Int) (gpio : Option Unit)
      (actions : List Action)
deriving DecidableEq

def SetupResult.actions : SetupResult → List Action
  | .fail acts => acts
  | .success _ _ _ _ acts => acts

/-- `setup` (dcpspi.c lines 162-221), linearized along its control flow:
daemonize unless in the foreground; open the inbound fifo, failure
returns -1 with nothing to clean up; open the outbound fifo, failure
closes and deletes the inbound fifo (`error_fifo_out`); in dummy mode
return success with `*spi_fd = -1` and `*gpio = NULL` before touching
any hardware; open the SPI device, failure closes both fifos
(`error_spi_open` falling through to `error_fifo_out`); open the GPIO,
failure closes the SPI device and both fifos (`error_gpio_open` falling
through); finally enable debouncing if requested and set the SPI clock. -/
def setup (p : Parameters) (env : Env) : SetupResult :=
  if p.run_in_foreground = false ∧ env.daemon_ok = false then
    .fail (daemon_acts p)
  else if env.fifo_in_fd < 0 then
    .fail (daemon_acts p ++ [.actOpenFifoIn])
  else if env.fifo_out_fd < 0 then
    .fail (daemon_acts p ++ [.actOpenFifoIn, .actOpenFifoOut, .actCloseFifoIn])
  else if p.dummy_mode then
    .success env.fifo_in_fd env.fifo_out_fd (-1) none
      (daemon_acts p ++ [.actOpenFifoIn, .actOpenFifoOut])
  else if env.spi_fd < 0 then
    .fail (daemon_acts p ++
      [.actOpenFifoIn, .actOpenFifoOut, .actOpenSpi,
       .actCloseFifoOut, .actCloseFifoIn])
  else if env.gpio_ok = false then
    .fail (daemon_acts p ++
      [.actOpenFifoIn, .actOpenFifoOut, .actOpenSpi, .actOpenGpio,
       .actCloseSpi, .actCloseFifoOut, .actCloseFifoIn])
  else
    .success env.fifo_in_fd env.fifo_out_fd env.spi_fd (some ())
      (daemon_acts p ++
        [.actOpenFifoIn, .actOpenFifoOut, .actOpenSpi, .actOpenGpio] ++
        (if p.gpio_needs_debouncing then [.actEnableDebounce] else []) ++
        [.actSetSpeed p.spi_clock])

/-! ## `main` (dcpspi.c lines 339-388) -/

def EXIT_SUCCESS : Nat := 0
def EXIT_FAILURE : Nat := 1

/-- `main`: parse the command line (-1 exits `EXIT_FAILURE`, 1 prints
usage and exits `EXIT_SUCCESS`, 2 prints the version and exits
`EXIT_SUCCESS`); run `setup`, a negative result exits `EXIT_FAILURE`;
install the signal handlers, run `main_loop`, then shut down: close the
SPI device unless in dummy mode, close and delete both fifos, close the
GPIO unless in dummy mode, and exit `EXIT_SUCCESS`.  Returns the exit
status and the action trace. -/
def main_run (args : List String) (env : Env) : Nat × List Action :=
  match process_command_line args with
  | .err => (EXIT_FAILURE, [])
  | .help => (EXIT_SUCCESS, [])
  | .version => (EXIT_SUCCESS, [])
  | .ok p =>
    match setup p env with
    | .fail acts => (EXIT_FAILURE, acts)
    | .success fin fout fspi fgpio acts =>
      (EXIT_SUCCESS,
        acts ++ [.actRunLoop (loop_steps env.flag env.step env.fuel 0)] ++
        (if p.dummy_mode then [] else [.actCloseSpi]) ++
        [.actCloseFifoIn, .actCloseFifoOut] ++
        (if p.dummy_mode then [] else [.actCloseGpio]))

/-! ## Signal dispositions (`main`, dcpspi.c lines 364-372) -/

/-- The `sa_flags` bits of the installed `struct sigaction`
(dcpspi.c line 367): `SA_SIGINFO | SA_RESETHAND`. -/
structure SaFlags where
  sa_siginfo : Bool
  sa_resethand : Bool
deriving DecidableEq

def installed_sa_flags : SaFlags := { sa_siginfo := true, sa_resethand := true }

/-- A signal's disposition: default action, or the custom handler
installed with the given flags. -/
inductive Disposition where
  | dfl
  | custom (flags : SaFlags)
deriving DecidableEq

/-- Process state for signal delivery: the `keep_running` flag and the
dispositions of SIGINT and SIGTERM. -/
structure SigProcState where
  keep_running : Bool
  int_disp : Disposition
  term_disp : Disposition
deriving DecidableEq

/-- The two `sigaction` calls of `main` (dcpspi.c lines 371-372):
install `signal_handler` with `SA_SIGINFO | SA_RESETHAND` for both
SIGINT and SIGTERM. -/
def install_handlers (s : SigProcState) : SigProcState :=
  { s with int_disp := .custom installed_sa_flags,
           term_disp := .custom installed_sa_flags }

inductive DeliverOutcome where
  | handled (s : SigProcState)
  | killed
deriving DecidableEq

/-- Modelled from the spec (POSIX semantics of signal delivery, which
is outside the repository's code): delivering SIGINT runs the custom
handler, whose body clears `keep_running`; if the handler was installed
with `SA_RESETHAND`, the disposition is reset to the default before the
handler runs, so the next delivery takes the default action; the
default action for SIGINT terminates the process immediately. -/
def deliver_sigint (s : SigProcState) : DeliverOutcome :=
  match s.int_disp with
  | .dfl => .killed
  | .custom f =>
    .handled { s with keep_running := false,
                      int_disp := if f.sa_resethand then .dfl else s.int_disp }

/-- Modelled from the spec (POSIX semantics, as for SIGINT): SIGTERM
delivery under the installed disposition. -/
def deliver_sigterm (s : SigProcState) : DeliverOutcome :=
  match s.term_disp with
  | .dfl => .killed
  | .custom f =>
    .handled { s with keep_running := false,
                      term_disp := if f.sa_resethand then .dfl else s.term_disp }

/-! ## Helper lemmas -/

theorem pcl_loop_nil (p : Parameters) : pcl_loop [] p = .ok p := by
  rw [pcl_loop.eq_def]

/-- One scanning step of `pcl_loop`, restated as a rewrite rule that
applies only to a non-empty argument list. -/
theorem pcl_loop_cons (a : String) (rest : List String) (p : Parameters) :
    pcl_loop (a :: rest) p =
      (if a = "--help" then .help
      else if a = "--version" then .version
      else if a = "--fg" then pcl_loop rest { p with run_in_foreground := true }
      else if a = "--ififo" then
        match rest with
        | [] => .err
        | v :: rest2 => pcl_loop rest2 { p with fifo_in_name := v }
      else if a = "--ofifo" then
        match rest with
        | [] => .err
        | v :: rest2 => pcl_loop rest2 { p with fifo_out_name := v }
      else if a = "--spidev" then
        match rest with
        | [] => .err
        | v :: rest2 => pcl_loop rest2 { p with spidev_name := v }
      else if a = "--spiclk" then
        match rest with
        | [] => .err
        | v :: rest2 =>
          match parse_ul_arg v UINT32_MAX with
          | none => .err
          | some n => pcl_loop rest2 { p with spi_clock := n }
      else if a = "--gpio" then
        match rest with
        | [] => .err
        | v :: rest2 =>
          match parse_ul_arg v UINT_MAX with
          | none => .err
          | some n => pcl_loop rest2 { p with gpio_num := n }
      else if a = "--debounce" then pcl_loop rest { p with gpio_needs_debouncing := true }
      else .err) := by
  rw [pcl_loop.eq_def]

/-- Scanning is compositional on a successfully consumed prefix: if the
loop consumes `xs` completely, reaching the parameter block `q`, then
scanning `xs ++ ys` continues with `ys` from `q`. -/
theorem pcl_loop_append_ok (xs ys : List String) (p q : Parameters)
    (h : pcl_loop xs p = .ok q) :
    pcl_loop (xs ++ ys) p = pcl_loop ys q := by
  induction xs, p using pcl_loop.induct with
  | case1 p => simp_all [pcl_loop_nil]
  | _ => simp_all [pcl_loop_cons]

/-- A `--help` short-circuit inside `xs` is unaffected by appending
further arguments. -/
theorem pcl_loop_append_help (xs ys : List String) (p : Parameters)
    (h : pcl_loop xs p = .help) :
    pcl_loop (xs ++ ys) p = .help := by
  induction xs, p using pcl_loop.induct with
  | case1 p => simp_all [pcl_loop_nil]
  | _ => simp_all [pcl_loop_cons]

/-- A `--version` short-circuit inside `xs` is unaffected by appending
further arguments. -/
theorem pcl_loop_append_version (xs ys : List String) (p : Parameters)
    (h : pcl_loop xs p = .version) :
    pcl_loop (xs ++ ys) p = .version := by
  induction xs, p using pcl_loop.induct with
  | case1 p => simp_all [pcl_loop_nil]
  | _ => simp_all [pcl_loop_cons]

/-- The scanning loop never touches the `dummy_mode` field (only the
check after the loop does). -/
theorem pcl_loop_dummy_mode (xs : List String) (p q : Parameters)
    (h : pcl_loop xs p = .ok q) : q.dummy_mode = p.dummy_mode := by
  induction xs, p using pcl_loop.induct with
  | case1 p => simp_all [pcl_loop_nil]
  | _ => simp_all [pcl_loop_cons]

theorem loop_steps_le (flag step : Nat → Bool) (fuel n : Nat) :
    n ≤ loop_steps flag step fuel n := by
  induction fuel generalizing n with
  | zero => simp [loop_steps]
  | succ fuel ih =>
    simp only [loop_steps]
    split
    · exact le_trans (Nat.le_succ n) (ih (n + 1))
    · exact le_refl n

theorem loop_steps_bounded (flag step : Nat → Bool) (fuel n : Nat) :
    loop_steps flag step fuel n ≤ n + fuel := by
  induction fuel generalizing n with
  | zero => simp [loop_steps]
  | succ fuel ih =>
    simp only [loop_steps]
    split
    · have := ih (n + 1); omega
    · omega

/-- Every iteration the loop completed saw the `keep_running` flag true
and a `true` result from `dcpspi_process`. -/
theorem loop_steps_run (flag step : Nat → Bool) (fuel n i : Nat)
    (hn : n ≤ i) (hi : i < loop_steps flag step fuel n) :
    flag i = true ∧ step i = true := by
  induction fuel generalizing n with
  | zero => simp [loop_steps] at hi; omega
  | succ fuel ih =>
    simp only [loop_steps] at hi
    by_cases h : (flag n && step n) = true
    · rw [if_pos h] at hi
      rcases Nat.eq_or_lt_of_le hn with rfl | hlt
      · exact Bool.and_eq_true_iff.mp h
      · exact ih (n + 1) hlt hi
    · rw [if_neg h] at hi
      omega

/-- When the loop stopped before exhausting its fuel, it stopped
because the flag was cleared or the step call returned false. -/
theorem loop_steps_stop (flag step : Nat → Bool) (fuel n : Nat)
    (h : loop_steps flag step fuel n < n + fuel) :
    flag (loop_steps flag step fuel n) = false ∨
      step (loop_steps flag step fuel n) = false := by
  induction fuel generalizing n with
  | zero => simp only [loop_steps] at h; omega
  | succ fuel ih =>
    simp only [loop_steps] at h ⊢
    by_cases hc : (flag n && step n) = true
    · rw [if_pos hc] at h ⊢
      exact ih (n + 1) (by omega)
    · rw [if_neg hc] at h ⊢
      rcases Bool.and_eq_false_iff.mp (Bool.not_eq_true _ |>.mp hc) with h1 | h1
      · exact Or.inl h1
      · exact Or.inr h1

/-- `setup` in dummy mode: both fifos are opened, the SPI device and
the GPIO are not, and the out parameters are `*spi_fd = -1`,
`*gpio = NULL`. -/
theorem setup_dummy_ok (p : Parameters) (env : Env)
    (hdm : p.dummy_mode = true) (hd : env.daemon_ok = true)
    (hin : 0 ≤ env.fifo_in_fd) (hout : 0 ≤ env.fifo_out_fd) :
    setup p env = .success env.fifo_in_fd env.fifo_out_fd (-1) none
      (daemon_acts p ++ [.actOpenFifoIn, .actOpenFifoOut]) := by
  have h1 : ¬(p.run_in_foreground = false ∧ env.daemon_ok = false) := by
    simp [hd]
  unfold setup
  rw [if_neg h1, if_neg (not_lt.mpr hin), if_neg (not_lt.mpr hout), if_pos hdm]

/-- `setup` outside dummy mode with every acquisition succeeding. -/
theorem setup_hw_ok (p : Parameters) (env : Env)
    (hdm : p.dummy_mode = false) (hd : env.daemon_ok = true)
    (hin : 0 ≤ env.fifo_in_fd) (hout : 0 ≤ env.fifo_out_fd)
    (hspi : 0 ≤ env.spi_fd) (hg : env.gpio_ok = true) :
    setup p env = .success env.fifo_in_fd env.fifo_out_fd env.spi_fd (some ())
      (daemon_acts p ++
        [.actOpenFifoIn, .actOpenFifoOut, .actOpenSpi, .actOpenGpio] ++
        (if p.gpio_needs_debouncing then [.actEnableDebounce] else []) ++
        [.actSetSpeed p.spi_clock]) := by
  have h1 : ¬(p.run_in_foreground = false ∧ env.daemon_ok = false) := by
    simp [hd]
  have h2 : ¬p.dummy_mode = true := by simp [hdm]
  have h3 : ¬env.gpio_ok = false := by simp [hg]
  unfold setup
  rw [if_neg h1, if_neg (not_lt.mpr hin), if_neg (not_lt.mpr hout), if_neg h2,
    if_neg (not_lt.mpr hspi), if_neg h3]

theorem daemon_acts_no_run_loop (p : Parameters) (n : Nat) :
    Action.actRunLoop n ∉ daemon_acts p := by
  unfold daemon_acts
  split <;> simp

/-- `setup` never runs the main loop. -/
theorem setup_no_run_loop (p : Parameters) (env : Env) (n : Nat) :
    Action.actRunLoop n ∉ (setup p env).actions := by
  have hda := daemon_acts_no_run_loop p n
  unfold setup
  repeat' split
  all_goals simp_all [SetupResult.actions]

/-- In dummy mode `setup` returns before the `gpio_enable_debouncing`
and `spi_set_speed_hz` calls, so its result does not depend on the
`spi_clock` and `gpio_needs_debouncing` parameters. -/
theorem setup_dummy_frame (p : Parameters) (env : Env) (c : Nat) (d : Bool)
    (hdm : p.dummy_mode = true) :
    setup { p with spi_clock := c, gpio_needs_debouncing := d } env = setup p env := by
  unfold setup
  simp only [daemon_acts]
  simp [hdm]

/-- A concrete environment for instantiating the theorems: every
acquisition succeeds and the loop's step call returns false after two
steps. -/
def env_all_ok : Env :=
  { fifo_in_fd := 3, fifo_out_fd := 4, spi_fd := 5, gpio_ok := true,
    daemon_ok := true, flag := fun _ => true, step := fun i => decide (i < 2),
    fuel := 10 }

/-! ## Claim theorems -/

/-- C5: the wire-format constants equal the values the spec states: the
synchronization header is 6 bytes, the command header 4 bytes, the
maximum payload 256 bytes, the escape byte 0x27, the command codes
WriteRegister=0 / ReadRegister=1 / MultiWriteRegister=2 /
MultiReadRegister=3, slave-origin serials occupy [0x0001, 0x7fff] with
invalid sentinel 0x0000, and master-origin serials occupy
[0x8001, 0xffff] with invalid sentinel 0x8000. -/
theorem claim_C5_wire_constants :
    DCPSYNC_HEADER_SIZE = 6 ∧ DCP_HEADER_SIZE = 4 ∧ DCP_PAYLOAD_MAXSIZE = 256 ∧
    DCP_ESCAPE_CHARACTER = 0x27 ∧
    DCP_COMMAND_WRITE_REGISTER = 0 ∧ DCP_COMMAND_READ_REGISTER = 1 ∧
    DCP_COMMAND_MULTI_WRITE_REGISTER = 2 ∧ DCP_COMMAND_MULTI_READ_REGISTER = 3 ∧
    DCPSYNC_SLAVE_SERIAL_MIN = 0x0001 ∧ DCPSYNC_SLAVE_SERIAL_MAX = 0x7fff ∧
    DCPSYNC_SLAVE_SERIAL_INVALID = 0x0000 ∧
    DCPSYNC_MASTER_SERIAL_MIN = 0x8001 ∧ DCPSYNC_MASTER_SERIAL_MAX = 0xffff ∧
    DCPSYNC_MASTER_SERIAL_INVALID = 0x8000 := by
  decide

/-- C4: the transaction's two byte arenas are backed by fixed buffers
whose capacities are set once before the loop starts: the DCP-side
buffer holds exactly 6+4+256 = 266 bytes and the SPI-side buffer
2*(4+256) = 520 bytes; the arena write path reports overflow instead of
growing, so no code path changes the capacity. -/
theorem claim_C4_fixed_buffers :
    dcp_backing_buffer_size = 266 ∧
    spi_backing_buffer_size = 520 ∧
    main_loop_dcp_buffer.size = dcp_backing_buffer_size ∧
    main_loop_spi_buffer.size = spi_backing_buffer_size ∧
    (∀ b x b', buffer_append b x = some b' → b'.size = b.size) ∧
    (∀ b x, buffer_append b x = none ↔ b.size < b.pos + 1) := by
  refine ⟨rfl, rfl, rfl, rfl, ?_, ?_⟩
  · intro b x b' h
    unfold buffer_append at h
    split at h
    · cases h; rfl
    · cases h
  · intro b x
    unfold buffer_append
    split <;> simp_all

theorem claim_C4_fixed_buffers_witness :
    ((⟨2, 1, [7]⟩ : Buffer)).size = ((⟨2, 0, []⟩ : Buffer)).size :=
  claim_C4_fixed_buffers.2.2.2.2.1 ⟨2, 0, []⟩ 7 ⟨2, 1, [7]⟩ (by decide)

/-- C1: the top-level run loop has the shape
`while(keep_running && step())`: the signal handler only writes the
shared `keep_running` flag (no other global changes, no allocation or
I/O in the trace), and the loop reads the flag once per iteration
between completed steps — every completed iteration saw the flag true
and the step call returning true, and when the loop stops early it is
because the flag was cleared or the step call returned false. -/
theorem claim_C1_run_loop_shape (flag step : Nat → Bool) (fuel r : Nat)
    (h : loop_steps flag step fuel 0 = r) :
    (∀ i, i < r → flag i = true ∧ step i = true) ∧
    (r < fuel → flag r = false ∨ step r = false) ∧
    (∀ sig g, signal_handler sig g =
      ({ keep_running := false,
         parameters_spi_clock := g.parameters_spi_clock,
         parameters_gpio_num := g.parameters_gpio_num }, [])) := by
  subst h
  refine ⟨?_, ?_, ?_⟩
  · intro i hi
    exact loop_steps_run flag step fuel 0 i (Nat.zero_le i) hi
  · intro hr
    exact loop_steps_stop flag step fuel 0 (by omega)
  · intro sig g
    rfl

theorem claim_C1_run_loop_shape_witness :
    ((fun i => decide (i < 2)) 1 = true ∧ (fun _ : Nat => true) 1 = true) ∧
    ((fun i => decide (i < 2)) 2 = false ∨ (fun _ : Nat => true) 2 = false) :=
  ⟨(claim_C1_run_loop_shape (fun i => decide (i < 2)) (fun _ => true) 5 2
      (by decide)).1 1 (by decide),
   (claim_C1_run_loop_shape (fun i => decide (i < 2)) (fun _ => true) 5 2
      (by decide)).2.1 (by decide)⟩

/-- C2: for every command line, the process exits with status 0 when
given `--help` or `--version`, and after a graceful shutdown (the run
loop terminating after a successful setup); it exits with status 1 when
an argument is invalid — an unknown option, a value-taking option at
the end of the argument vector, or an out-of-range `--spiclk` or
`--gpio` value, each of which makes `process_command_line` return -1 —
or when resource setup fails. -/
theorem claim_C2_exit_codes (args : List String) (env : Env) :
    (process_command_line args = .help → main_run args env = (EXIT_SUCCESS, [])) ∧
    (process_command_line args = .version → main_run args env = (EXIT_SUCCESS, [])) ∧
    (∀ p fin fout fspi g acts, process_command_line args = .ok p →
      setup p env = .success fin fout fspi g acts →
      (main_run args env).1 = EXIT_SUCCESS) ∧
    (process_command_line args = .err → (main_run args env).1 = EXIT_FAILURE) ∧
    (∀ p acts, process_command_line args = .ok p → setup p env = .fail acts →
      (main_run args env).1 = EXIT_FAILURE) ∧
    (∀ pre rest q a, pcl_loop pre default_parameters = .ok q →
      args = pre ++ a :: rest →
      a ≠ "--help" → a ≠ "--version" → a ≠ "--fg" → a ≠ "--ififo" →
      a ≠ "--ofifo" → a ≠ "--spidev" → a ≠ "--spiclk" → a ≠ "--gpio" →
      a ≠ "--debounce" →
      process_command_line args = .err) ∧
    (∀ pre q opt, pcl_loop pre default_parameters = .ok q →
      args = pre ++ [opt] →
      (opt = "--ififo" ∨ opt = "--ofifo" ∨ opt = "--spidev" ∨
        opt = "--spiclk" ∨ opt = "--gpio") →
      process_command_line args = .err) ∧
    (∀ pre rest q v, pcl_loop pre default_parameters = .ok q →
      args = pre ++ "--spiclk" :: v :: rest →
      parse_ul_arg v UINT32_MAX = none →
      process_command_line args = .err) ∧
    (∀ pre rest q v, pcl_loop pre default_parameters = .ok q →
      args = pre ++ "--gpio" :: v :: rest →
      parse_ul_arg v UINT_MAX = none →
      process_command_line args = .err) := by
  refine ⟨?_, ?_, ?_, ?_, ?_, ?_, ?_, ?_, ?_⟩
  · intro h
    simp [main_run, h]
  · intro h
    simp [main_run, h]
  · intro p fin fout fspi g acts h1 h2
    simp [main_run, h1, h2]
  · intro h
    simp [main_run, h]
  · intro p acts h1 h2
    simp [main_run, h1, h2]
  · intro pre rest q a h hargs hn1 hn2 hn3 hn4 hn5 hn6 hn7 hn8 hn9
    subst hargs
    unfold process_command_line
    rw [pcl_loop_append_ok pre (a :: rest) default_parameters q h, pcl_loop_cons]
    simp [hn1, hn2, hn3, hn4, hn5, hn6, hn7, hn8, hn9]
  · intro pre q opt h hargs hopt
    subst hargs
    unfold process_command_line
    rw [pcl_loop_append_ok pre [opt] default_parameters q h, pcl_loop_cons]
    rcases hopt with rfl | rfl | rfl | rfl | rfl <;> simp
  · intro pre rest q v h hargs hv
    subst hargs
    unfold process_command_line
    rw [pcl_loop_append_ok pre ("--spiclk" :: v :: rest) default_parameters q h,
      pcl_loop_cons]
    simp [hv]
  · intro pre rest q v h hargs hv
    subst hargs
    unfold process_command_line
    rw [pcl_loop_append_ok pre ("--gpio" :: v :: rest) default_parameters q h,
      pcl_loop_cons]
    simp [hv]

theorem claim_C2_exit_codes_witness :
    process_command_line ["--spiclk", "4294967296"] = .err ∧
    (main_run ["--spiclk", "4294967296"] env_all_ok).1 = EXIT_FAILURE := by
  have h := claim_C2_exit_codes ["--spiclk", "4294967296"] env_all_ok
  have he : process_command_line ["--spiclk", "4294967296"] = .err :=
    h.2.2.2.2.2.2.2.1 [] [] default_parameters "4294967296"
      (pcl_loop_nil default_parameters) rfl (by decide)
  exact ⟨he, h.2.2.2.1 he⟩

/-- C3: passing the sentinel value "-" as the bus device name
(`--spidev -`) selects no-hardware dummy mode — the parsed parameter
block has `dummy_mode` set exactly when the final `spidev` name is
"-" — and in dummy mode setup still creates and opens both host
channels and succeeds, but the SPI device is never opened
(`*spi_fd = -1`, no open-SPI action) and no GPIO handle is created
(`*gpio = NULL`, no open-GPIO action), while the main loop still runs. -/
theorem claim_C3_dummy_mode (args : List String) (q : Parameters) (env : Env)
    (hok : process_command_line args = .ok q) :
    (q.dummy_mode = true ↔ q.spidev_name = "-") ∧
    (q.dummy_mode = true → env.daemon_ok = true →
      0 ≤ env.fifo_in_fd → 0 ≤ env.fifo_out_fd →
      setup q env = .success env.fifo_in_fd env.fifo_out_fd (-1) none
        (daemon_acts q ++ [.actOpenFifoIn, .actOpenFifoOut]) ∧
      (main_run args env).1 = EXIT_SUCCESS ∧
      Action.actOpenSpi ∉ (main_run args env).2 ∧
      Action.actOpenGpio ∉ (main_run args env).2 ∧
      Action.actRunLoop (loop_steps env.flag env.step env.fuel 0) ∈
        (main_run args env).2) := by
  have hok' := hok
  unfold process_command_line at hok'
  constructor
  · cases hpcl : pcl_loop args default_parameters with
    | err => rw [hpcl] at hok'; cases hok'
    | help => rw [hpcl] at hok'; cases hok'
    | version => rw [hpcl] at hok'; cases hok'
    | ok q0 =>
      rw [hpcl] at hok'
      have hq : apply_dummy q0 = q := by
        cases hok'
        rfl
      have hdm0 : q0.dummy_mode = false := by
        have := pcl_loop_dummy_mode args default_parameters q0 hpcl
        simpa [default_parameters] using this
      subst hq
      unfold apply_dummy
      by_cases hs : q0.spidev_name = "-"
      · simp [hs]
      · simp [hs, hdm0]
  · intro hdm hd hin hout
    have hsetup := setup_dummy_ok q env hdm hd hin hout
    refine ⟨hsetup, ?_, ?_, ?_, ?_⟩ <;>
      by_cases hf : q.run_in_foreground <;>
      simp [main_run, hok, hsetup, hdm, daemon_acts, hf]

theorem claim_C3_dummy_mode_witness :
    (main_run ["--fg", "--spidev", "-"] env_all_ok).1 = EXIT_SUCCESS ∧
    Action.actOpenSpi ∉ (main_run ["--fg", "--spidev", "-"] env_all_ok).2 := by
  have h := claim_C3_dummy_mode ["--fg", "--spidev", "-"]
    { fifo_in_name := "/tmp/dcp_to_spi", fifo_out_name := "/tmp/spi_to_dcp",
      spidev_name := "-", spi_clock := 0, gpio_num := 4,
      run_in_foreground := true, gpio_needs_debouncing := false,
      dummy_mode := true }
    env_all_ok (by decide)
  have h2 := h.2 rfl rfl (by decide) (by decide)
  exact ⟨h2.2.1, h2.2.2.1⟩

/-- C8: the SIGINT and SIGTERM handlers are installed with
`SA_RESETHAND`, so graceful shutdown is offered only for the first such
signal: delivering the signal once runs the handler (clearing
`keep_running`) and reverts that signal's disposition to the default,
and a second delivery of the same signal terminates the process
immediately. -/
theorem claim_C8_sa_resethand_one_shot (s : SigProcState) :
    installed_sa_flags.sa_resethand = true ∧
    deliver_sigint (install_handlers s) =
      .handled { keep_running := false, int_disp := .dfl,
                 term_disp := .custom installed_sa_flags } ∧
    deliver_sigint { keep_running := false, int_disp := .dfl,
                     term_disp := .custom installed_sa_flags } = .killed ∧
    deliver_sigterm (install_handlers s) =
      .handled { keep_running := false, int_disp := .custom installed_sa_flags,
                 term_disp := .dfl } ∧
    deliver_sigterm { keep_running := false, int_disp := .custom installed_sa_flags,
                      term_disp := .dfl } = .killed :=
  ⟨rfl, rfl, rfl, rfl, rfl⟩

/-- C6: setup errors are surfaced before the core ever runs, and on any
failing setup step every resource opened by an earlier step is released
before setup returns failure: if opening the inbound channel fails,
nothing needs cleanup; if opening the outbound channel fails, the
inbound channel is closed and deleted; if opening the SPI device fails,
both channels are closed; if opening the GPIO fails, the SPI device and
both channels are closed; in each case `main` exits with failure status
and the trace contains no run of the main loop. -/
theorem claim_C6_setup_cleanup (p : Parameters) (env : Env)
    (hd : p.run_in_foreground = true ∨ env.daemon_ok = true) :
    (env.fifo_in_fd < 0 →
      setup p env = .fail (daemon_acts p ++ [.actOpenFifoIn])) ∧
    (0 ≤ env.fifo_in_fd → env.fifo_out_fd < 0 →
      setup p env = .fail (daemon_acts p ++
        [.actOpenFifoIn, .actOpenFifoOut, .actCloseFifoIn])) ∧
    (0 ≤ env.fifo_in_fd → 0 ≤ env.fifo_out_fd → p.dummy_mode = false →
      env.spi_fd < 0 →
      setup p env = .fail (daemon_acts p ++
        [.actOpenFifoIn, .actOpenFifoOut, .actOpenSpi,
         .actCloseFifoOut, .actCloseFifoIn])) ∧
    (0 ≤ env.fifo_in_fd → 0 ≤ env.fifo_out_fd → p.dummy_mode = false →
      0 ≤ env.spi_fd → env.gpio_ok = false →
      setup p env = .fail (daemon_acts p ++
        [.actOpenFifoIn, .actOpenFifoOut, .actOpenSpi, .actOpenGpio,
         .actCloseSpi, .actCloseFifoOut, .actCloseFifoIn])) ∧
    (∀ args acts, process_command_line args = .ok p →
      setup p env = .fail acts →
      main_run args env = (EXIT_FAILURE, acts) ∧
      ∀ n, Action.actRunLoop n ∉ acts) := by
  have h1 : ¬(p.run_in_foreground = false ∧ env.daemon_ok = false) := by
    rcases hd with h | h <;> simp [h]
  refine ⟨?_, ?_, ?_, ?_, ?_⟩
  · intro hin
    unfold setup
    rw [if_neg h1, if_pos hin]
  · intro hin hout
    unfold setup
    rw [if_neg h1, if_neg (not_lt.mpr hin), if_pos hout]
  · intro hin hout hdm hspi
    unfold setup
    rw [if_neg h1, if_neg (not_lt.mpr hin), if_neg (not_lt.mpr hout),
      if_neg (by simp [hdm]), if_pos hspi]
  · intro hin hout hdm hspi hg
    unfold setup
    rw [if_neg h1, if_neg (not_lt.mpr hin), if_neg (not_lt.mpr hout),
      if_neg (by simp [hdm]), if_neg (not_lt.mpr hspi), if_pos hg]
  · intro args acts hok hfail
    constructor
    · simp [main_run, hok, hfail]
    · intro n
      have hnl := setup_no_run_loop p env n
      rw [hfail] at hnl
      simpa [SetupResult.actions] using hnl

theorem claim_C6_setup_cleanup_witness :
    setup default_parameters
      { fifo_in_fd := 3, fifo_out_fd := -1, spi_fd := 5, gpio_ok := true,
        daemon_ok := true, flag := fun _ => true, step := fun _ => true,
        fuel := 1 } =
      .fail (daemon_acts default_parameters ++
        [.actOpenFifoIn, .actOpenFifoOut, .actCloseFifoIn]) :=
  (claim_C6_setup_cleanup default_parameters
    { fifo_in_fd := 3, fifo_out_fd := -1, spi_fd := 5, gpio_ok := true,
      daemon_ok := true, flag := fun _ => true, step := fun _ => true,
      fuel := 1 } (Or.inr rfl)).2.1 (by decide) (by decide)

/-- C7: each held handle is opened exactly once during setup and closed
exactly once during shutdown: over a full successful run, the two named
pipes are each opened once and closed (and deleted) once, and the SPI
device and the GPIO handle are each opened once and closed once when
not in dummy mode, and never opened or closed in dummy mode. -/
theorem claim_C7_open_close_once (args : List String) (p : Parameters) (env : Env)
    (hok : process_command_line args = .ok p)
    (hd : env.daemon_ok = true) (hin : 0 ≤ env.fifo_in_fd)
    (hout : 0 ≤ env.fifo_out_fd) (hspi : 0 ≤ env.spi_fd)
    (hg : env.gpio_ok = true) :
    (main_run args env).2.count .actOpenFifoIn = 1 ∧
    (main_run args env).2.count .actCloseFifoIn = 1 ∧
    (main_run args env).2.count .actOpenFifoOut = 1 ∧
    (main_run args env).2.count .actCloseFifoOut = 1 ∧
    (main_run args env).2.count .actOpenSpi = (if p.dummy_mode then 0 else 1) ∧
    (main_run args env).2.count .actCloseSpi = (if p.dummy_mode then 0 else 1) ∧
    (main_run args env).2.count .actOpenGpio = (if p.dummy_mode then 0 else 1) ∧
    (main_run args env).2.count .actCloseGpio = (if p.dummy_mode then 0 else 1) := by
  by_cases hdm : p.dummy_mode = true
  · have hsetup := setup_dummy_ok p env hdm hd hin hout
    by_cases hf : p.run_in_foreground <;>
      simp [main_run, hok, hsetup, hdm, daemon_acts, hf,
        List.count_append, List.count_cons, List.count_nil]
  · have hdm' : p.dummy_mode = false := by simpa using hdm
    have hsetup := setup_hw_ok p env hdm' hd hin hout hspi hg
    by_cases hf : p.run_in_foreground <;>
      by_cases hdb : p.gpio_needs_debouncing <;>
      simp [main_run, hok, hsetup, hdm', daemon_acts, hf, hdb,
        List.count_append, List.count_cons, List.count_nil]

theorem claim_C7_open_close_once_witness :
    (main_run ["--fg"] env_all_ok).2.count Action.actOpenSpi = 1 ∧
    (main_run ["--fg"] env_all_ok).2.count Action.actCloseSpi = 1 := by
  have h := claim_C7_open_close_once ["--fg"]
    { fifo_in_name := "/tmp/dcp_to_spi", fifo_out_name := "/tmp/spi_to_dcp",
      spidev_name := "/dev/spidev0.0", spi_clock := 0, gpio_num := 4,
      run_in_foreground := true, gpio_needs_debouncing := false,
      dummy_mode := false }
    env_all_ok (by decide) rfl (by decide) (by decide) (by decide) rfl
  exact ⟨by simpa using h.2.2.2.2.1, by simpa using h.2.2.2.2.2.1⟩

/-- C9: in dummy mode the `--spiclk` and `--debounce` options have no
effect: `setup` returns success before reaching the calls that set the
SPI clock rate and enable GPIO debouncing, so its result does not
depend on those parameters, and for every command line whose parse
selects dummy mode, appending `--debounce`, or `--spiclk` with a valid
value, leaves the exit status and the entire action trace of the run
unchanged. -/
theorem claim_C9_dummy_ignores_clk_debounce (env : Env) :
    (∀ p c d, p.dummy_mode = true →
      setup { p with spi_clock := c, gpio_needs_debouncing := d } env = setup p env) ∧
    (∀ args q, process_command_line args = .ok q → q.dummy_mode = true →
      main_run (args ++ ["--debounce"]) env = main_run args env) ∧
    (∀ args q v n, process_command_line args = .ok q → q.dummy_mode = true →
      parse_ul_arg v UINT32_MAX = some n →
      main_run (args ++ ["--spiclk", v]) env = main_run args env) := by
  refine ⟨fun p c d hdm => setup_dummy_frame p env c d hdm, ?_, ?_⟩
  · intro args q hok hq
    have hok' := hok
    unfold process_command_line at hok'
    cases hpcl : pcl_loop args default_parameters with
    | err => rw [hpcl] at hok'; cases hok'
    | help => rw [hpcl] at hok'; cases hok'
    | version => rw [hpcl] at hok'; cases hok'
    | ok q0 =>
      rw [hpcl] at hok'
      have hq0 : apply_dummy q0 = q := by cases hok'; rfl
      have hpc2 : process_command_line (args ++ ["--debounce"]) =
          .ok { q with gpio_needs_debouncing := true } := by
        unfold process_command_line
        rw [pcl_loop_append_ok args ["--debounce"] default_parameters q0 hpcl,
          pcl_loop_cons]
        subst hq0
        unfold apply_dummy
        by_cases hs : q0.spidev_name = "-" <;> simp [hs, pcl_loop_nil]
      have hsetup : setup { q with gpio_needs_debouncing := true } env =
          setup q env :=
        setup_dummy_frame q env q.spi_clock true hq
      simp only [main_run, hok, hpc2, hsetup]
  · intro args q v n hok hq hv
    have hok' := hok
    unfold process_command_line at hok'
    cases hpcl : pcl_loop args default_parameters with
    | err => rw [hpcl] at hok'; cases hok'
    | help => rw [hpcl] at hok'; cases hok'
    | version => rw [hpcl] at hok'; cases hok'
    | ok q0 =>
      rw [hpcl] at hok'
      have hq0 : apply_dummy q0 = q := by cases hok'; rfl
      have hpc2 : process_command_line (args ++ ["--spiclk", v]) =
          .ok { q with spi_clock := n } := by
        unfold process_command_line
        rw [pcl_loop_append_ok args ["--spiclk", v] default_parameters q0 hpcl,
          pcl_loop_cons]
        subst hq0
        unfold apply_dummy
        by_cases hs : q0.spidev_name = "-" <;> simp [hs, hv, pcl_loop_nil]
      have hsetup : setup { q with spi_clock := n } env = setup q env :=
        setup_dummy_frame q env n q.gpio_needs_debouncing hq
      simp only [main_run, hok, hpc2, hsetup]

theorem claim_C9_dummy_ignores_clk_debounce_witness :
    main_run (["--spidev", "-"] ++ ["--debounce"]) env_all_ok =
      main_run ["--spidev", "-"] env_all_ok :=
  (claim_C9_dummy_ignores_clk_debounce env_all_ok).2.1 ["--spidev", "-"]
    { fifo_in_name := "/tmp/dcp_to_spi", fifo_out_name := "/tmp/spi_to_dcp",
      spidev_name := "-", spi_clock := 0, gpio_num := 4,
      run_in_foreground := false, gpio_needs_debouncing := false,
      dummy_mode := true }
    (by decide) rfl

/-- C10: command-line scanning is left to right and `--help` and
`--version` short-circuit it: once scanning has consumed a prefix of
options, a `--help` (or `--version`) encountered next makes parsing
return immediately with the help (or version) result, so any later
arguments are never inspected and the process exits with status 0; for
repeated value-taking options, the last occurrence wins (the final
parameter value is the one from the last occurrence, whatever earlier
occurrences set). -/
theorem claim_C10_scan_order (p0 : Parameters) :
    (∀ pre rest q, pcl_loop pre p0 = .ok q →
      pcl_loop (pre ++ "--help" :: rest) p0 = .help) ∧
    (∀ pre rest q, pcl_loop pre p0 = .ok q →
      pcl_loop (pre ++ "--version" :: rest) p0 = .version) ∧
    (∀ pre rest q env, pcl_loop pre default_parameters = .ok q →
      main_run (pre ++ "--help" :: rest) env = (EXIT_SUCCESS, [])) ∧
    (∀ pre rest q env, pcl_loop pre default_parameters = .ok q →
      main_run (pre ++ "--version" :: rest) env = (EXIT_SUCCESS, [])) ∧
    (∀ xs q v, pcl_loop xs p0 = .ok q →
      pcl_loop (xs ++ ["--spidev", v]) p0 = .ok { q with spidev_name := v }) ∧
    (∀ xs q v n, pcl_loop xs p0 = .ok q → parse_ul_arg v UINT32_MAX = some n →
      pcl_loop (xs ++ ["--spiclk", v]) p0 = .ok { q with spi_clock := n }) := by
  refine ⟨?_, ?_, ?_, ?_, ?_, ?_⟩
  · intro pre rest q h
    rw [pcl_loop_append_ok pre ("--help" :: rest) p0 q h, pcl_loop_cons]
    simp
  · intro pre rest q h
    rw [pcl_loop_append_ok pre ("--version" :: rest) p0 q h, pcl_loop_cons]
    simp
  · intro pre rest q env h
    have hp : process_command_line (pre ++ "--help" :: rest) = .help := by
      unfold process_command_line
      rw [pcl_loop_append_ok pre ("--help" :: rest) default_parameters q h,
        pcl_loop_cons]
      simp
    simp [main_run, hp]
  · intro pre rest q env h
    have hp : process_command_line (pre ++ "--version" :: rest) = .version := by
      unfold process_command_line
      rw [pcl_loop_append_ok pre ("--version" :: rest) default_parameters q h,
        pcl_loop_cons]
      simp
    simp [main_run, hp]
  · intro xs q v h
    rw [pcl_loop_append_ok xs ["--spidev", v] p0 q h, pcl_loop_cons]
    simp [pcl_loop_nil]
  · intro xs q v n h hv
    rw [pcl_loop_append_ok xs ["--spiclk", v] p0 q h, pcl_loop_cons]
    simp [hv, pcl_loop_nil]

theorem claim_C10_scan_order_witness :
    pcl_loop (["--fg"] ++ "--help" :: ["--bogus"]) default_parameters = .help ∧
    pcl_loop (["--spidev", "a"] ++ ["--spidev", "b"]) default_parameters =
      .ok { default_parameters with spidev_name := "b" } := by
  constructor
  · exact (claim_C10_scan_order default_parameters).1 ["--fg"] ["--bogus"]
      { default_parameters with run_in_foreground := true } (by decide)
  · exact (claim_C10_scan_order default_parameters).2.2.2.2.1 ["--spidev", "a"]
      { default_parameters with spidev_name := "a" } "b" (by decide)
